import Mathlib

/-!
Verification of the RepoChat synchronization core (`src/git_repo_ssh.py`),
a chat client storing its log in a git repository.

The Python source is shallowly embedded: pure string manipulation becomes
Lean string functions; the filesystem log file becomes an `Option String`
(`none` = file absent); each external git invocation is an oracle value of
type `Except String String` (error = the process' stderr); the retry loop
becomes structural recursion on the remaining attempt count; the thread
interleaving needed for the serialization claim becomes an explicit
small-step scheduler over per-thread event lists.
-/

set_option autoImplicit false

namespace RepoChat

/-- Whitespace characters stripped by Python's `str.strip()` (ASCII range,
    which is what the app's inputs use). -/
def isPySpace (c : Char) : Bool :=
  c == ' ' || c == '\t' || c == '\n' || c == '\r' || c == '\x0b' || c == '\x0c'

/-- Python `s.strip()`: remove leading and trailing whitespace. -/
def pyStrip (s : String) : String :=
  ⟨((s.data.dropWhile isPySpace).reverse.dropWhile isPySpace).reverse⟩

/-- Does `p` occur as a contiguous sublist of the second argument? -/
def listInfix (p : List Char) : List Char → Bool
  | [] => p.isPrefixOf []
  | c :: t => p.isPrefixOf (c :: t) || listInfix p t

/-- Python `needle in haystack` (substring test). -/
def strIn (needle haystack : String) : Bool :=
  listInfix needle.data haystack.data

/- ## Configuration constants (source lines 27-31) -/

def AUTO_REFRESH_INTERVAL : Nat := 10

def MAX_RETRIES : Nat := 3

/- ## Git helpers (source lines 34-60)

`run_git_command` runs a git subprocess; on non-zero exit it raises
`RuntimeError("Git error: " + stderr.strip())`, otherwise it returns
`stdout.strip()`.  A subprocess outcome is modelled as
`Except String String` (error = raw stderr, ok = raw stdout); `runGitStep`
applies the stripping/wrapping done by `run_git_command`. -/

def runGitStep : Except String String → Except String String
  | .ok out => .ok (pyStrip out)
  | .error err => .error ("Git error: " ++ pyStrip err)

/-- ASCII case lowering of one character (the git diagnostics the app
    inspects are ASCII, so this matches Python's `str.lower()` on them). -/
def charLower (c : Char) : Char :=
  if 65 ≤ c.toNat && c.toNat ≤ 90 then Char.ofNat (c.toNat + 32) else c

/-- Python `s.lower()` restricted to ASCII input. -/
def pyLower (s : String) : String :=
  ⟨s.data.map charLower⟩

/-- The upstream-missing test in `git_pull`'s except-branch (line 50):
    `"refs/head" in str(e) or "no upstream" in str(e).lower()`. -/
def isUpstreamMissing (e : String) : Bool :=
  strIn "refs/head" e || strIn "no upstream" (pyLower e)

deriving instance DecidableEq for Except

/-- Outcomes of the at most four subprocesses `git_pull` may run, in the
    order the source can reach them: the first `git pull`, then inside the
    repair branch `git rev-parse --abbrev-ref HEAD`,
    `git branch --set-upstream-to ...`, and the retried `git pull`. -/
structure PullEnv where
  pull1 : Except String String
  revParse : Except String String
  setUpstream : Except String String
  pull2 : Except String String

/-- What a run of `git_pull` did: its result (error = message of the
    propagated `RuntimeError`) and how many `--set-upstream-to` repairs and
    `git pull` subprocesses it issued. -/
structure PullOutcome where
  result : Except String String
  setUpstreamCalls : Nat
  pullCalls : Nat
  deriving DecidableEq

/-- `git_pull` (source lines 45-55): try `git pull origin main`; if it fails
    with an upstream-missing diagnostic, look up the current branch, bind it
    to `origin/main`, and retry the pull exactly once, propagating whatever
    that retry does; any other failure propagates immediately. -/
def git_pull (env : PullEnv) : PullOutcome :=
  match runGitStep env.pull1 with
  | .ok out => ⟨.ok out, 0, 1⟩
  | .error e =>
    if isUpstreamMissing e then
      match runGitStep env.revParse with
      | .error e2 => ⟨.error e2, 0, 1⟩
      | .ok _branch =>
        match runGitStep env.setUpstream with
        | .error e3 => ⟨.error e3, 1, 1⟩
        | .ok _ => ⟨runGitStep env.pull2, 1, 2⟩
    else ⟨.error e, 0, 1⟩

/- ## File helpers (source lines 63-74) -/

/-- `read_chat_file` (lines 63-67): empty string when the file does not
    exist, otherwise its full content. -/
def read_chat_file : Option String → String
  | none => ""
  | some c => c

/-- The line format of `append_message` (line 71):
    `f"[{ts}] {user}: {msg}\n"`, both fields inserted verbatim. -/
def formatLine (ts user msg : String) : String :=
  "[" ++ ts ++ "] " ++ user ++ ": " ++ msg ++ "\n"

/-- `append_message` (lines 69-74): append the formatted line to the file
    (creating it when absent, as open-mode `"a"` does) and return the line. -/
def append_message (file : Option String) (ts user msg : String) :
    Option String × String :=
  let line := formatLine ts user msg
  (some (read_chat_file file ++ line), line)

/- ## GUI-facing state (class `GitChatApp`, source lines 118-230)

The tkinter variables and widgets that the synchronization core reads or
writes: `self._username` (entry box for the name), `self._status_text`
(status label), `self._current_content` (the in-memory snapshot),
`self.chat_area` (the displayed text), `self.entry` (the message box). -/

structure AppState where
  username : String
  statusText : String
  currentContent : String
  chatArea : String
  entry : String
  deriving DecidableEq

/-- An update pushed across the presentation boundary: a call to
    `_set_chat_content` (the "content changed" notification) or to
    `_set_status`. -/
inductive UIEvent where
  | contentChanged (c : String)
  | status (m : String)
  deriving DecidableEq

/-- Body of the worker thread of `refresh` (source lines 180-190): pull,
    read, unconditionally store/display the content and stamp the status;
    on a pull failure set an error status and leave everything else alone.
    `pull` is the outcome of `git_pull` (error = the raised message),
    `file` the log file's state after the pull, `time` the `%H:%M:%S`
    clock reading.  Returns the new state and the UI events emitted. -/
def refreshDo (pull : Except String String) (file : Option String)
    (time : String) (s : AppState) : AppState × List UIEvent :=
  match pull with
  | .error e =>
    ({ s with statusText := "Refresh error: " ++ e },
     [.status ("Refresh error: " ++ e)])
  | .ok _ =>
    let content := read_chat_file file
    ({ s with currentContent := content, chatArea := content,
              statusText := "Refreshed at " ++ time },
     [.contentChanged content, .status ("Refreshed at " ++ time)])

/-- One iteration of `_auto_refresh_loop` (source lines 214-226), up to the
    trailing sleep: if the auto-refresh checkbox is on, pull and read; on
    any failure swallow it (`except: pass`); if the content differs from
    the snapshot, replace the snapshot and emit the marshalled UI updates.
    The third component records whether a pull was attempted this tick. -/
def autoTick (enabled : Bool) (pull : Except String String)
    (file : Option String) (s : AppState) : AppState × List UIEvent × Bool :=
  if enabled then
    match pull with
    | .error _ => (s, [], true)
    | .ok _ =>
      let content := read_chat_file file
      if content = s.currentContent then
        (s, [], true)
      else
        ({ s with currentContent := content, chatArea := content,
                  statusText := "Auto-updated" },
         [.contentChanged content, .status "Auto-updated"], true)
  else
    (s, [], false)

/-- `_auto_refresh_loop` unrolled over a finite run of ticks; each tick
    supplies the checkbox state read fresh at that tick (line 216), the
    pull outcome and the file content.  Returns the final state, all UI
    events in order, and the number of ticks that attempted a pull. -/
def autoRefreshLoop (s : AppState) :
    List (Bool × Except String String × Option String) →
    AppState × List UIEvent × Nat
  | [] => (s, [], 0)
  | (enabled, pull, file) :: rest =>
    let (s', evs, pulled) := autoTick enabled pull file s
    let (s'', evs', n) := autoRefreshLoop s' rest
    (s'', evs ++ evs', (if pulled then 1 else 0) + n)

/- ## The send path (source lines 192-212) -/

/-- Observable actions of a send, in order: the synchronous local append
    (line 197), each `git_commit_and_push` attempt (line 203), and each
    `time.sleep(2)` backoff (line 210). -/
inductive SendAction where
  | appendAct
  | pushAttempt (i : Nat)
  | sleepSec (n : Nat)
  deriving DecidableEq

/-- Result of the `_do_send` retry loop: final state, the virtual clock
    time (advanced only by sleeps) at the start of each push attempt, the
    statuses set in order, the action trace, and whether a push succeeded. -/
structure LoopOut where
  state : AppState
  times : List Nat
  statuses : List String
  trace : List SendAction
  sent : Bool
  deriving DecidableEq

/-- The `for attempt in range(MAX_RETRIES)` loop of `_do_send` (source
    lines 200-211), recursing on remaining attempts.  `push i` is the
    outcome of the i-th `git_commit_and_push` (error = raised message).
    On success: append `line` to the snapshot, display it, status
    `"Sent âœ“"` — the source file stores exactly the code points U+00E2
    U+0153 U+201C after `Sent ` (a double-encoded check mark), and the
    embedding preserves them.  On failure: transient retry status, sleep
    2 seconds.
    Falling off the loop sets `"Send failed after retries"`. -/
def doSendLoop (push : Nat → Except String Unit) (line : String) :
    AppState → Nat → Nat → Nat → LoopOut
  | s, _attempt, 0, _clock =>
    ⟨{ s with statusText := "Send failed after retries" },
     [], ["Send failed after retries"], [], false⟩
  | s, attempt, r + 1, clock =>
    match push attempt with
    | .ok _ =>
      let c := s.currentContent ++ line
      ⟨{ s with currentContent := c, chatArea := c, statusText := "Sent âœ“" },
       [clock], ["Sent âœ“"], [.pushAttempt attempt], true⟩
    | .error e =>
      let rs := "Retry " ++ toString (attempt + 1) ++ "/" ++
        toString MAX_RETRIES ++ ": " ++ e
      let rest := doSendLoop push line { s with statusText := rs }
        (attempt + 1) r (clock + 2)
      ⟨rest.state, clock :: rest.times, rs :: rest.statuses,
       .pushAttempt attempt :: .sleepSec 2 :: rest.trace, rest.sent⟩

/-- Everything observable about one call to `send`. -/
structure SendOutcome where
  state : AppState
  file : Option String
  times : List Nat
  statuses : List String
  trace : List SendAction
  sent : Bool
  noop : Bool
  deriving DecidableEq

/-- The author the send uses: `self._username.get().strip() or "Anon"`
    (source line 196). -/
def sendUser (s : AppState) : String :=
  if pyStrip s.username = "" then "Anon" else pyStrip s.username

/-- `send` (source lines 192-212): strip the entry text and bail out when
    empty; otherwise append the formatted line to the log file
    synchronously, clear the entry box, and run the `_do_send` retry loop
    (the commit message built at line 203 does not affect any observable
    here, so the push oracle is indexed by attempt number only). -/
def send (s : AppState) (file : Option String) (ts : String)
    (push : Nat → Except String Unit) : SendOutcome :=
  let msg := pyStrip s.entry
  if msg = "" then
    ⟨s, file, [], [], [], false, true⟩
  else
    let user := sendUser s
    let (file', line) := append_message file ts user msg
    let s1 := { s with entry := "" }
    let r := doSendLoop push line s1 0 MAX_RETRIES 0
    ⟨r.state, file', r.times, r.statuses, .appendAct :: r.trace, r.sent, false⟩

/- ## Thread interleaving (source lines 133, 190, 212, 214-226)

`refresh` and `send` each start a fresh daemon thread
(`threading.Thread(...).start()`, lines 190 and 212) and `__init__` starts
the long-lived auto-refresh thread (line 133).  The only synchronization
object in the whole program is `self._stop_event` (a `threading.Event`
used solely as a shutdown flag); no `threading.Lock` or other
mutual-exclusion gate appears anywhere.  We model each thread body as its
sequence of events in program order, a remote (git) call contributing a
begin/end pair so that two calls can visibly overlap; an `acquire` /
`release` event vocabulary exists so that the *absence* of any gate in the
transcribed bodies is itself a checkable statement. -/

inductive RemoteOp where
  | pull
  | commitAndPush
  deriving DecidableEq

inductive Event where
  | beginRemote (op : RemoteOp)
  | endRemote (op : RemoteOp)
  | acquire
  | release
  | localStep
  deriving DecidableEq

/-- Thread body of a manual `refresh` on its success path (lines 182-187):
    `git_pull()`; `read_chat_file()`; `_set_chat_content`; `_set_status`.
    No acquire/release brackets any of it in the source. -/
def manualRefreshEvents : List Event :=
  [.beginRemote .pull, .endRemote .pull, .localStep, .localStep, .localStep]

/-- Thread body of one enabled auto-refresh tick on its changed-content
    path (lines 218-223): `git_pull()`; `read_chat_file()`; two marshalled
    UI updates.  Again no acquire/release in the source. -/
def autoTickEvents : List Event :=
  [.beginRemote .pull, .endRemote .pull, .localStep, .localStep, .localStep]

/-- Thread body of `_do_send` on a first-attempt success (lines 201-207):
    `git_commit_and_push`; snapshot update; two UI updates. -/
def sendPushEvents : List Event :=
  [.beginRemote .commitAndPush, .endRemote .commitAndPush,
   .localStep, .localStep, .localStep]

/-- Scheduler configuration: per-thread remaining events, which remote
    call each thread is currently inside, and who holds the gate. -/
structure SchedConfig where
  pending : List (List Event)
  active : List (Option RemoteOp)
  gate : Option Nat
  deriving DecidableEq

def initConfig (bodies : List (List Event)) : SchedConfig :=
  ⟨bodies, bodies.map (fun _ => none), none⟩

/-- Let thread `i` execute its next event; `none` when the step is not
    enabled (thread finished, or the gate is busy at an `acquire`). -/
def stepConfig (cfg : SchedConfig) (i : Nat) : Option SchedConfig :=
  match cfg.pending.get? i with
  | some (e :: rest) =>
    let moved := cfg.pending.set i rest
    match e with
    | .beginRemote op =>
      some { cfg with pending := moved, active := cfg.active.set i (some op) }
    | .endRemote _ =>
      some { cfg with pending := moved, active := cfg.active.set i none }
    | .acquire =>
      match cfg.gate with
      | none => some { cfg with pending := moved, gate := some i }
      | some _ => none
    | .release =>
      some { cfg with pending := moved, gate := none }
    | .localStep =>
      some { cfg with pending := moved }
  | _ => none

/-- Two or more threads are inside a remote call at the same instant. -/
def overlapping (cfg : SchedConfig) : Bool :=
  2 ≤ (cfg.active.filter Option.isSome).length

/-- Is the whole schedule (a list of thread indices) executable? -/
def runOk : SchedConfig → List Nat → Bool
  | _, [] => true
  | cfg, i :: rest =>
    match stepConfig cfg i with
    | some cfg' => runOk cfg' rest
    | none => false

/-- Does some configuration reached along the schedule have two remote
    calls in flight at once? -/
def anyOverlap : SchedConfig → List Nat → Bool
  | cfg, [] => overlapping cfg
  | cfg, i :: rest =>
    overlapping cfg ||
      match stepConfig cfg i with
      | some cfg' => anyOverlap cfg' rest
      | none => false

/-- The serialization property claimed of the program: along every
    executable interleaving of the given thread bodies, no two remote
    calls are ever in flight at the same instant. -/
def gateSerialized (bodies : List (List Event)) : Prop :=
  ∀ sched : List Nat,
    runOk (initConfig bodies) sched = true →
    anyOverlap (initConfig bodies) sched = false

/- ## Occurrence counting (to state "contains the entry exactly once") -/

/-- Number of positions of the second list at which `p` starts as a
    contiguous block. -/
def occCount (p : List Char) : List Char → Nat
  | [] => 0
  | c :: t => (if p.isPrefixOf (c :: t) then 1 else 0) + occCount p t

/-- Number of occurrences of `needle` as a substring of `haystack`. -/
def strOccCount (needle haystack : String) : Nat :=
  occCount needle.data haystack.data

/-- Number of newline characters in a string; a written record "spans more
    than one physical line" when it holds more than one. -/
def countNl (s : String) : Nat :=
  s.data.count '\n'

end RepoChat

namespace RepoChat

example : pyStrip "  hi \t\n" = "hi" := by decide

example : strIn "no upstream" "fatal: no upstream branch" = true := by decide

example : isUpstreamMissing "Git error: There is no tracking information (no Upstream)" = true := by decide

example : formatLine "2024-01-01 10:00:00" "Alice" "hi" = "[2024-01-01 10:00:00] Alice: hi\n" := by decide

/- ## Helper lemmas about `occCount` -/

theorem occCount_eq_zero_of_lt (p s : List Char) (h : s.length < p.length) :
    occCount p s = 0 := by
  induction s with
  | nil => rfl
  | cons c t ih =>
    have hpre : p.isPrefixOf (c :: t) = false := by
      cases ht : p.isPrefixOf (c :: t) with
      | false => rfl
      | true =>
        have hle := (List.isPrefixOf_iff_prefix.mp ht).length_le
        simp only [List.length_cons] at hle h
        omega
    have ht' : t.length < p.length := by
      simp only [List.length_cons] at h
      omega
    simp [occCount, hpre, ih ht']

theorem occCount_self (p : List Char) (hp : p ≠ []) : occCount p p = 1 := by
  cases p with
  | nil => exact absurd rfl hp
  | cons c t =>
    have hpre : (c :: t).isPrefixOf (c :: t) = true :=
      List.isPrefixOf_iff_prefix.mpr (List.prefix_refl _)
    have h0 : occCount (c :: t) t = 0 :=
      occCount_eq_zero_of_lt _ _ (by simp)
    simp [occCount, hpre, h0]

/-- A copy of `q ++ ['\n']` cannot start strictly inside `b` and spill over
    the boundary of `b ++ (q ++ ['\n'])` when `q` is newline-free. -/
theorem no_straddle (q b : List Char) (hq : ('\n') ∉ q) (hb : b ≠ [])
    (hlt : b.length < (q ++ ['\n']).length)
    (h : (q ++ ['\n']) <+: b ++ (q ++ ['\n'])) : False := by
  have hbl : 1 ≤ b.length := by
    cases b with
    | nil => exact absurd rfl hb
    | cons _ _ => simp
  have hql : (q ++ ['\n']).length = q.length + 1 := by simp
  have hble : b.length ≤ q.length := by omega
  have hk : (q ++ ['\n']).length - b.length ≤ q.length := by omega
  have h4 : q ++ ['\n'] =
      b ++ (q ++ ['\n']).take ((q ++ ['\n']).length - b.length) := by
    have := List.prefix_iff_eq_take.mp h
    rw [List.take_append_eq_append_take,
      List.take_of_length_le (le_of_lt hlt)] at this
    exact this
  have h5 : (q ++ ['\n']).drop b.length =
      (q ++ ['\n']).take ((q ++ ['\n']).length - b.length) := by
    conv_lhs => rw [h4]
    rw [List.drop_append_eq_append_drop]
    simp
  have h6 : (q ++ ['\n']).take ((q ++ ['\n']).length - b.length) =
      q.take ((q ++ ['\n']).length - b.length) := by
    rw [List.take_append_eq_append_take]
    have hz : (q ++ ['\n']).length - b.length - q.length = 0 := by
      simp only [List.length_append, List.length_cons, List.length_nil]
      omega
    rw [hz]
    simp
  have h7 : (q ++ ['\n']).drop b.length = q.drop b.length ++ ['\n'] := by
    rw [List.drop_append_eq_append_drop]
    have hz : b.length - q.length = 0 := by omega
    rw [hz]
    simp
  have h8 : ('\n') ∈ q.take ((q ++ ['\n']).length - b.length) := by
    rw [← h6, ← h5, h7]
    exact List.mem_append_right _ (List.mem_singleton_self _)
  exact hq (List.take_subset _ _ h8)

/-- Appending one newline-terminated, otherwise newline-free record to a
    text that does not contain it yields a text that contains it exactly
    once. -/
theorem occCount_append_self (q : List Char) (hq : ('\n') ∉ q) :
    ∀ a : List Char, occCount (q ++ ['\n']) a = 0 →
      occCount (q ++ ['\n']) (a ++ (q ++ ['\n'])) = 1 := by
  intro a
  induction a with
  | nil =>
    intro _
    simpa using occCount_self (q ++ ['\n']) (by simp)
  | cons c a' ih =>
    intro h
    have hsplit : (if (q ++ ['\n']).isPrefixOf (c :: a') then 1 else 0) +
        occCount (q ++ ['\n']) a' = 0 := h
    have hpre : (q ++ ['\n']).isPrefixOf (c :: a') = false := by
      cases ht : (q ++ ['\n']).isPrefixOf (c :: a') with
      | false => rfl
      | true =>
        rw [ht] at hsplit
        simp at hsplit
    have h2 : occCount (q ++ ['\n']) a' = 0 := by
      rw [hpre] at hsplit
      simpa using hsplit
    have hnotpre : (q ++ ['\n']).isPrefixOf (c :: (a' ++ (q ++ ['\n']))) = false := by
      cases ht : (q ++ ['\n']).isPrefixOf (c :: (a' ++ (q ++ ['\n']))) with
      | false => rfl
      | true =>
        exfalso
        have hyp : (q ++ ['\n']) <+: (c :: a') ++ (q ++ ['\n']) := by
          have := List.isPrefixOf_iff_prefix.mp ht
          simpa using this
        rcases le_or_lt (q ++ ['\n']).length (c :: a').length with hle | hlt
        · have heq := List.prefix_iff_eq_take.mp hyp
          rw [List.take_append_eq_append_take] at heq
          have hz : (q ++ ['\n']).length - (c :: a').length = 0 := by omega
          rw [hz] at heq
          simp only [List.take_zero, List.append_nil] at heq
          have : (q ++ ['\n']) <+: (c :: a') := by
            rw [heq]
            exact List.take_prefix _ _
          rw [← List.isPrefixOf_iff_prefix, hpre] at this
          exact Bool.false_ne_true this
        · exact no_straddle q (c :: a') hq (by simp) hlt hyp
    have hrec : occCount (q ++ ['\n']) (a' ++ (q ++ ['\n'])) = 1 := ih h2
    show (if (q ++ ['\n']).isPrefixOf (c :: (a' ++ (q ++ ['\n']))) then 1 else 0) +
        occCount (q ++ ['\n']) (a' ++ (q ++ ['\n'])) = 1
    rw [hnotpre, hrec]
    simp

/- ## Claim theorems -/

/-- Claim C5: when a pull fails with an upstream-missing diagnostic the
    adapter repairs the upstream link exactly once and retries the pull
    exactly once more; a failure of the retried pull — including a second
    upstream-missing failure — propagates without another repair, and a
    pull failure without the signature propagates immediately with no
    repair. -/
theorem upstream_repair_once (env : PullEnv) (e : String)
    (h1 : runGitStep env.pull1 = Except.error e) :
    (isUpstreamMissing e = true →
      ∀ b u, runGitStep env.revParse = Except.ok b →
        runGitStep env.setUpstream = Except.ok u →
        (git_pull env).setUpstreamCalls = 1 ∧ (git_pull env).pullCalls = 2 ∧
        (git_pull env).result = runGitStep env.pull2) ∧
    (isUpstreamMissing e = false → git_pull env = ⟨Except.error e, 0, 1⟩) := by
  constructor
  · intro hm b u hr hs
    simp [git_pull, h1, hm, hr, hs]
  · intro hm
    simp [git_pull, h1, hm]

/-- Concrete run of `upstream_repair_once`: the first pull fails with an
    upstream-missing message, repair succeeds, and the retried pull fails
    the same way again — it propagates, with exactly one repair and two
    pulls. -/
theorem upstream_repair_once_witness :
    (git_pull ⟨Except.error "no upstream branch", Except.ok "main",
        Except.ok "", Except.error "still no upstream"⟩).setUpstreamCalls = 1 ∧
    (git_pull ⟨Except.error "no upstream branch", Except.ok "main",
        Except.ok "", Except.error "still no upstream"⟩).pullCalls = 2 ∧
    (git_pull ⟨Except.error "no upstream branch", Except.ok "main",
        Except.ok "", Except.error "still no upstream"⟩).result =
      Except.error "Git error: still no upstream" := by
  have h := (upstream_repair_once
    ⟨Except.error "no upstream branch", Except.ok "main",
      Except.ok "", Except.error "still no upstream"⟩
    "Git error: no upstream branch" (by decide)).1 (by decide) "main" ""
    (by decide) (by decide)
  exact ⟨h.1, h.2.1, by rw [h.2.2]; decide⟩

/-- Claim C6: a manual refresh whose pull fails surfaces the error as a
    status message and leaves the in-memory snapshot (and displayed
    content) unchanged. -/
theorem refresh_error_atomic (e : String) (file : Option String)
    (t : String) (s : AppState) :
    refreshDo (Except.error e) file t s =
      ({ s with statusText := "Refresh error: " ++ e },
       [UIEvent.status ("Refresh error: " ++ e)]) ∧
    (refreshDo (Except.error e) file t s).1.currentContent = s.currentContent := by
  exact ⟨rfl, rfl⟩

/-- Claim C7: from an empty log, sending "hi" as "Alice" at
    2024-01-01 10:00:00 with a first-try successful push makes the log
    file exactly the one formatted line, updates the snapshot to it, and
    reports success. -/
theorem send_scenario :
    send ⟨"Alice", "Ready", "", "", "hi"⟩ none "2024-01-01 10:00:00"
        (fun _ => Except.ok ()) =
      ⟨⟨"Alice", "Sent âœ“", "[2024-01-01 10:00:00] Alice: hi\n",
        "[2024-01-01 10:00:00] Alice: hi\n", ""⟩,
       some "[2024-01-01 10:00:00] Alice: hi\n",
       [0], ["Sent âœ“"], [.appendAct, .pushAttempt 0], true, false⟩ := by
  decide

/-- Claim C8: a tick of the auto-refresh loop attempts a pull exactly when
    the checkbox is enabled at that tick (read fresh each iteration); a
    disabled tick changes nothing; an enabled tick whose pull fails is
    suppressed — it surfaces no UI event and changes no state; over any run
    of ticks the number of pulls equals the number of enabled ticks. -/
theorem auto_refresh_gating :
    (∀ (enabled : Bool) (pull : Except String String) (file : Option String)
        (s : AppState), (autoTick enabled pull file s).2.2 = enabled) ∧
    (∀ (pull : Except String String) (file : Option String) (s : AppState),
        autoTick false pull file s = (s, [], false)) ∧
    (∀ (e : String) (file : Option String) (s : AppState),
        autoTick true (Except.error e) file s = (s, [], true)) ∧
    (∀ (s : AppState) (ticks : List (Bool × Except String String × Option String)),
        (autoRefreshLoop s ticks).2.2 = (ticks.filter (fun t => t.1)).length) := by
  have htick : ∀ (enabled : Bool) (pull : Except String String)
      (file : Option String) (s : AppState),
      (autoTick enabled pull file s).2.2 = enabled := by
    intro enabled pull file s
    cases enabled with
    | false => rfl
    | true =>
      cases pull with
      | error e => rfl
      | ok o =>
        by_cases h : read_chat_file file = s.currentContent <;> simp [autoTick, h]
  refine ⟨htick, fun _ _ _ => rfl, fun _ _ _ => rfl, ?_⟩
  intro s ticks
  induction ticks generalizing s with
  | nil => rfl
  | cons tick rest ih =>
    obtain ⟨enabled, pull, file⟩ := tick
    simp only [autoRefreshLoop, List.filter]
    rw [htick enabled pull file s, ih]
    cases enabled <;> simp [Nat.add_comm]

/-- Claim C9: a send whose entered message strips to the empty string is a
    complete no-op — no append, no push attempt, no sleep, no status, and
    the entire app state (entry box included) is untouched. -/
theorem empty_send_noop (s : AppState) (file : Option String) (ts : String)
    (push : Nat → Except String Unit) (h : pyStrip s.entry = "") :
    send s file ts push = ⟨s, file, [], [], [], false, true⟩ := by
  simp [send, h]

/-- Concrete run of `empty_send_noop` on a whitespace-only entry. -/
theorem empty_send_noop_witness :
    pyStrip " \t  " = "" ∧
    send ⟨"Bob", "Ready", "c\n", "c\n", " \t  "⟩ (some "c\n") "t"
        (fun _ => Except.ok ()) =
      ⟨⟨"Bob", "Ready", "c\n", "c\n", " \t  "⟩, some "c\n",
       [], [], [], false, true⟩ :=
  ⟨by decide, empty_send_noop _ _ _ _ (by decide)⟩

/-- Claim C10: `append_message` writes exactly
    `"[" ++ ts ++ "] " ++ author ++ ": " ++ msg ++ "\n"` with both fields
    inserted verbatim, so the newline count of the record is one more than
    the newline counts of its fields combined, and a message with an
    embedded newline yields a record spanning more than one physical
    line. -/
theorem append_verbatim (file : Option String) (ts user msg : String) :
    append_message file ts user msg =
      (some (read_chat_file file ++
        ("[" ++ ts ++ "] " ++ user ++ ": " ++ msg ++ "\n")),
       "[" ++ ts ++ "] " ++ user ++ ": " ++ msg ++ "\n") ∧
    countNl (formatLine ts user msg) =
      countNl ts + countNl user + countNl msg + 1 ∧
    (1 ≤ countNl msg → 2 ≤ countNl (formatLine ts user msg)) := by
  have hcount : countNl (formatLine ts user msg) =
      countNl ts + countNl user + countNl msg + 1 := by
    simp only [formatLine, countNl, String.data_append, List.count_append]
    have h1 : List.count '\n' ['['] = 0 := by decide
    have h2 : List.count '\n' [']', ' '] = 0 := by decide
    have h3 : List.count '\n' [':', ' '] = 0 := by decide
    have h4 : List.count '\n' ['\n'] = 1 := by decide
    omega
  refine ⟨rfl, hcount, ?_⟩
  intro h
  rw [hcount]
  omega

/-- Concrete run of `append_verbatim`: a message with an embedded newline
    produces a record spanning more than one physical line. -/
theorem append_verbatim_witness :
    1 ≤ countNl "a\nb" ∧ 2 ≤ countNl (formatLine "t" "u" "a\nb") :=
  ⟨by decide, (append_verbatim none "t" "u" "a\nb").2.2 (by decide)⟩

/-- The retry loop never performs a local append: its trace holds only
    push attempts and sleeps. -/
theorem doSendLoop_no_append (push : Nat → Except String Unit) (line : String) :
    ∀ (r : Nat) (s : AppState) (attempt clock : Nat),
      SendAction.appendAct ∉ (doSendLoop push line s attempt r clock).trace := by
  intro r
  induction r with
  | zero => intro s attempt clock; simp [doSendLoop]
  | succ n ih =>
    intro s attempt clock
    cases hp : push attempt with
    | ok _ => simp [doSendLoop, hp]
    | error e => simp [doSendLoop, hp, ih]

/-- Claim C4: with a push failing at every attempt, `send` performs exactly
    `MAX_RETRIES` = 3 attempts at virtual clock times 0, 2, 4 (each pair of
    consecutive attempts separated by the 2-second backoff sleep), then
    reports the terminal exhaustion status. -/
theorem send_retry_bound (s : AppState) (file : Option String) (ts : String)
    (push : Nat → Except String Unit) (e : Nat → String)
    (hmsg : pyStrip s.entry ≠ "")
    (h : ∀ i, i < MAX_RETRIES → push i = Except.error (e i)) :
    (send s file ts push).times = [0, 2, 4] ∧
    (send s file ts push).times.length = MAX_RETRIES ∧
    List.Chain' (fun a b => a + 2 ≤ b) (send s file ts push).times ∧
    (send s file ts push).sent = false ∧
    (send s file ts push).state.statusText = "Send failed after retries" := by
  have h0 := h 0 (by decide)
  have h1 := h 1 (by decide)
  have h2 := h 2 (by decide)
  simp [send, hmsg, MAX_RETRIES, doSendLoop, h0, h1, h2]

/-- Concrete run of `send_retry_bound`: every push attempt fails, giving
    three attempts 2 seconds apart and the exhaustion status. -/
theorem send_retry_bound_witness :
    pyStrip "hi" ≠ "" ∧
    (send ⟨"Alice", "Ready", "", "", "hi"⟩ none "2024-01-01 10:00:00"
        (fun _ => Except.error "conflict")).times = [0, 2, 4] ∧
    (send ⟨"Alice", "Ready", "", "", "hi"⟩ none "2024-01-01 10:00:00"
        (fun _ => Except.error "conflict")).state.statusText =
      "Send failed after retries" := by
  have h := send_retry_bound ⟨"Alice", "Ready", "", "", "hi"⟩ none
    "2024-01-01 10:00:00" (fun _ => Except.error "conflict")
    (fun _ => "conflict") (by decide) (fun i _ => rfl)
  exact ⟨by decide, h.1, h.2.2.2.2⟩

/-- Claim C2: once the entered message is nonempty, `send` appends the
    formatted entry to the log file before any push attempt (the trace
    starts with the append and holds exactly one), and the file ends as
    old-content plus the entry for every push oracle — no failure rolls the
    append back; when the entry was not already present (and its fields are
    newline-free, as entries written by the app are), the resulting file
    contains it exactly once. -/
theorem send_durability (s : AppState) (file : Option String) (ts : String)
    (push : Nat → Except String Unit) (hmsg : pyStrip s.entry ≠ "") :
    (send s file ts push).file =
      some (read_chat_file file ++ formatLine ts (sendUser s) (pyStrip s.entry)) ∧
    (send s file ts push).trace.head? = some SendAction.appendAct ∧
    (send s file ts push).trace.count SendAction.appendAct = 1 ∧
    (('\n') ∉ ts.data → ('\n') ∉ (sendUser s).data →
      ('\n') ∉ (pyStrip s.entry).data →
      strOccCount (formatLine ts (sendUser s) (pyStrip s.entry))
        (read_chat_file file) = 0 →
      strOccCount (formatLine ts (sendUser s) (pyStrip s.entry))
        (read_chat_file file ++ formatLine ts (sendUser s) (pyStrip s.entry)) = 1) := by
  refine ⟨?_, ?_, ?_, ?_⟩
  · simp [send, hmsg, append_message]
  · simp [send, hmsg]
  · have hno := doSendLoop_no_append push
      (formatLine ts (sendUser s) (pyStrip s.entry)) MAX_RETRIES
      { s with entry := "" } 0 0
    simp [send, hmsg, append_message, List.count_cons,
      List.count_eq_zero.mpr hno]
  · intro hts huser hmsgnl h0
    have hdata : (formatLine ts (sendUser s) (pyStrip s.entry)).data =
        ("[" ++ ts ++ "] " ++ sendUser s ++ ": " ++ pyStrip s.entry).data ++ ['\n'] := by
      simp [formatLine, String.data_append]
    have hq : ('\n') ∉ ("[" ++ ts ++ "] " ++ sendUser s ++ ": " ++ pyStrip s.entry).data := by
      simp only [String.data_append, List.mem_append]
      intro hc
      rcases hc with (((((h' | h') | h') | h') | h') | h') <;>
        first
          | exact absurd h' (by decide)
          | exact hts h'
          | exact huser h'
          | exact hmsgnl h'
    have h0' : occCount
        (("[" ++ ts ++ "] " ++ sendUser s ++ ": " ++ pyStrip s.entry).data ++ ['\n'])
        (read_chat_file file).data = 0 := by
      rw [← hdata]
      exact h0
    have key := occCount_append_self
      ("[" ++ ts ++ "] " ++ sendUser s ++ ": " ++ pyStrip s.entry).data hq
      (read_chat_file file).data h0'
    show occCount (formatLine ts (sendUser s) (pyStrip s.entry)).data
      (read_chat_file file ++ formatLine ts (sendUser s) (pyStrip s.entry)).data = 1
    rw [String.data_append, hdata]
    exact key

/-- Concrete run of `send_durability`: from a one-line log, a send whose
    pushes all fail still leaves the entry appended exactly once, with the
    append first in the trace. -/
theorem send_durability_witness :
    pyStrip "hi" ≠ "" ∧
    (send ⟨"Alice", "Ready", "", "", "hi"⟩
        (some "[2024-01-01 09:00:00] Bob: yo\n") "2024-01-01 10:00:00"
        (fun _ => Except.error "net down")).file =
      some ("[2024-01-01 09:00:00] Bob: yo\n" ++
        "[2024-01-01 10:00:00] Alice: hi\n") ∧
    (send ⟨"Alice", "Ready", "", "", "hi"⟩
        (some "[2024-01-01 09:00:00] Bob: yo\n") "2024-01-01 10:00:00"
        (fun _ => Except.error "net down")).trace.head? =
      some SendAction.appendAct ∧
    strOccCount "[2024-01-01 10:00:00] Alice: hi\n"
      ("[2024-01-01 09:00:00] Bob: yo\n" ++
        "[2024-01-01 10:00:00] Alice: hi\n") = 1 := by
  have h := send_durability ⟨"Alice", "Ready", "", "", "hi"⟩
    (some "[2024-01-01 09:00:00] Bob: yo\n") "2024-01-01 10:00:00"
    (fun _ => Except.error "net down") (by decide)
  refine ⟨by decide, ?_, h.2.1, ?_⟩
  · have := h.1
    simpa using this
  · have := h.2.2.2 (by decide) (by decide) (by decide) (by decide)
    simpa using this

/-- Claim C1 is false of the code: with a manual refresh thread and an
    auto-refresh tick running concurrently, the schedule that starts both
    of their `git_pull` calls back-to-back is executable (nothing blocks
    it, since no thread body ever acquires a gate), and it puts two remote
    operations in flight at the same instant. -/
theorem no_gate_counterexample :
    ¬ gateSerialized [manualRefreshEvents, autoTickEvents] := by
  intro h
  have hv : runOk (initConfig [manualRefreshEvents, autoTickEvents]) [0, 1] = true := by
    decide
  exact absurd (h [0, 1] hv) (by decide)

/-- Claim C1 amended: no acquire/release of any mutual-exclusion gate
    occurs in the transcribed bodies of the refresh, auto-refresh, or send
    worker threads, and consequently there is an executable interleaving of
    a manual refresh with an auto-refresh tick in which their remote pull
    calls overlap. -/
theorem no_gate_in_code :
    (∀ ev ∈ manualRefreshEvents ++ autoTickEvents ++ sendPushEvents,
        ev ≠ Event.acquire) ∧
    runOk (initConfig [manualRefreshEvents, autoTickEvents]) [0, 1] = true ∧
    anyOverlap (initConfig [manualRefreshEvents, autoTickEvents]) [0, 1] = true := by
  decide

/-- Claim C3 is false of the code: a manual refresh with the pulled content
    byte-identical to the snapshot still emits the content notification
    (and a status) to the presentation boundary — the manual path performs
    no comparison. -/
theorem manual_refresh_notifies_counterexample :
    read_chat_file (some "x\n") =
      (⟨"A", "Ready", "x\n", "x\n", ""⟩ : AppState).currentContent ∧
    UIEvent.contentChanged "x\n" ∈
      (refreshDo (Except.ok "") (some "x\n") "12:00:00"
        ⟨"A", "Ready", "x\n", "x\n", ""⟩).2 := by
  decide

/-- Claim C3 amended: only the auto-refresh path compares the newly read
    content byte-for-byte with the snapshot — an unchanged enabled tick
    leaves the state untouched and emits nothing, a changed one replaces
    the snapshot and notifies — while a manual refresh performs no
    comparison and unconditionally replaces the snapshot and emits the
    content notification and a status. -/
theorem refresh_compare_only_auto :
    (∀ (o : String) (file : Option String) (s : AppState),
        read_chat_file file = s.currentContent →
        autoTick true (Except.ok o) file s = (s, [], true)) ∧
    (∀ (o : String) (file : Option String) (s : AppState),
        read_chat_file file ≠ s.currentContent →
        autoTick true (Except.ok o) file s =
          ({ s with currentContent := read_chat_file file,
                    chatArea := read_chat_file file,
                    statusText := "Auto-updated" },
           [UIEvent.contentChanged (read_chat_file file),
            UIEvent.status "Auto-updated"], true)) ∧
    (∀ (o : String) (file : Option String) (t : String) (s : AppState),
        (refreshDo (Except.ok o) file t s).2 =
          [UIEvent.contentChanged (read_chat_file file),
           UIEvent.status ("Refreshed at " ++ t)] ∧
        (refreshDo (Except.ok o) file t s).1.currentContent =
          read_chat_file file) := by
  refine ⟨?_, ?_, ?_⟩
  · intro o file s h
    simp [autoTick, h]
  · intro o file s h
    simp [autoTick, h]
  · intro o file t s
    exact ⟨rfl, rfl⟩

/-- Concrete run of `refresh_compare_only_auto`: an enabled tick that pulls
    identical content is silent and leaves the state untouched. -/
theorem refresh_compare_only_auto_witness :
    read_chat_file (some "x\n") =
      (⟨"A", "Ready", "x\n", "x\n", ""⟩ : AppState).currentContent ∧
    autoTick true (Except.ok "") (some "x\n") ⟨"A", "Ready", "x\n", "x\n", ""⟩ =
      (⟨"A", "Ready", "x\n", "x\n", ""⟩, [], true) :=
  ⟨by decide, refresh_compare_only_auto.1 "" (some "x\n")
    ⟨"A", "Ready", "x\n", "x\n", ""⟩ (by decide)⟩

end RepoChat
